import Mathlib

/-!
Shallow embedding of the analysis-orchestration and energy-calibration core of
FullSpectrumWebID (`src/src/EnergyCal.cpp` and `src/src/Analysis.cpp`).

Modelling conventions:
* machine floating point (`float`/`double`) is modelled by exact rationals;
* external collaborators (the GADRAS engine entry points, `SpecUtils`
  numeric routines, the Wt server) are modelled as explicit function
  parameters or small boundary models, never re-implemented from guesswork;
* fallible C++ code (functions that `throw`) is modelled with
  `Except String`; the strings of the thrown `runtime_error`s are kept;
* `shared_ptr` identity is modelled by an address field next to the pointee.
-/

namespace FullSpec

/-! ### Small rational linear algebra
Embedding of the dense `boost::ublas` operations used by `EnergyCal.cpp`
(anonymous namespace): products, transpose, and `matrix_invert`. -/

/-- Dot product of two rational vectors (pairing entries positionally). -/
def dotQ (xs ys : List ℚ) : ℚ :=
  ((xs.zip ys).map (fun p => p.1 * p.2)).sum

/-- Column `j` of a row-major matrix (missing entries read as `0`). -/
def colQ (m : List (List ℚ)) (j : ℕ) : List ℚ :=
  m.map (fun r => r.getD j 0)

/-- Transpose of a row-major matrix whose rows all have the length of the
first row (which is how every matrix of `EnergyCal.cpp` is built). -/
def matTr (m : List (List ℚ)) : List (List ℚ) :=
  (List.range ((m.headD []).length)).map (fun j => colQ m j)

/-- Matrix product (`boost::numeric::ublas::prod` on matrices). -/
def matMul (a b : List (List ℚ)) : List (List ℚ) :=
  a.map (fun ra => (List.range ((b.headD []).length)).map (fun j => dotQ ra (colQ b j)))

/-- Matrix-vector product (`boost::numeric::ublas::prod` on a vector). -/
def matVec (m : List (List ℚ)) (v : List ℚ) : List ℚ :=
  m.map (fun r => dotQ r v)

/-- Laplace expansion of the determinant along the first row, with explicit
fuel so that the definition is structurally recursive (and hence reduces
inside the kernel).  The fuel is always instantiated with the row count. -/
def detFuel : ℕ → List (List ℚ) → ℚ
  | _, [] => 1
  | 0, _ :: _ => 1
  | fuel + 1, r :: rest =>
    ((List.range r.length).map
      (fun j => (-1 : ℚ) ^ j * r.getD j 0 * detFuel fuel (rest.map (fun row => row.eraseIdx j)))).sum

/-- Determinant of a square rational matrix. -/
def detQ (m : List (List ℚ)) : ℚ :=
  detFuel m.length m

/-- `matrix_invert` of `EnergyCal.cpp` (lines 53-66): LU factorization with
partial pivoting fails exactly on a singular matrix, so over exact rationals
it is modelled as the adjugate-based inverse guarded by the determinant. -/
def matInvert (m : List (List ℚ)) : Option (List (List ℚ)) :=
  if detQ m = 0 then none
  else some ((List.range m.length).map (fun i => (List.range m.length).map (fun j =>
    ((-1 : ℚ) ^ (i + j) * detQ ((m.eraseIdx j).map (fun row => row.eraseIdx i))) / detQ m)))

/-! ### Basis functions of `EnergyCal.cpp` -/

/-- `poly_coef_fcn` (EnergyCal.cpp lines 148-151). -/
def poly_coef_fcn (order : ℕ) (channel : ℚ) (nchannel : ℕ) : ℚ :=
  channel ^ order

/-- `frf_coef_fcn` (EnergyCal.cpp lines 153-159). -/
def frf_coef_fcn (order : ℕ) (channel : ℚ) (nchannel : ℕ) : ℚ :=
  if order = 4 then 1 / (1 + 60 * (channel / (nchannel : ℚ)))
  else (channel / (nchannel : ℚ)) ^ order

/-- Success test for `Except` results (a `throw`-free C++ return). -/
def isOkE {ε α : Type} (e : Except ε α) : Bool :=
  match e with
  | .ok _ => true
  | .error _ => false

/-! ### `fit_energy_cal_imp` (EnergyCal.cpp lines 162-267)
The general linear least-squares fit of calibration coefficients to peaks.
`SpecUtils::correction_due_to_dev_pairs` and
`SpecUtils::deviation_pair_correction` are external collaborators and enter
as the parameters `devcorr` and `devapply` (each already specialized to the
deviation-pair list of the call); `std::sqrt` is the parameter `sqrtfn`. -/

/-- `EnergyCal::RecalPeakInfo` (EnergyCal.h). -/
structure RecalPeakInfo where
  peakMean : ℚ
  peakMeanUncert : ℚ
  peakMeanBinNumber : ℚ
  photopeakEnergy : ℚ
deriving DecidableEq

/-- `energy_uncerts[i]` of `fit_energy_cal_imp` (line 194). -/
def energyUncert (p : RecalPeakInfo) : ℚ :=
  p.photopeakEnergy * p.peakMeanUncert / max p.peakMean 1

/-- The list of coefficient indices that are fitted for (`fitfor` true). -/
def freeIndices (fitfor : List Bool) : List ℕ :=
  (List.range fitfor.length).filter (fun i => fitfor.getD i false)

/-- Position of free coefficient `i` among the free ones (the running `col`
of the source loops). -/
def freePos (fitfor : List Bool) (i : ℕ) : ℕ :=
  (fitfor.take i).count true

/-- One row of the design matrix `A` (lines 206-227): the basis value of each
free coefficient at the peak, weighted by the inverse energy uncertainty. -/
def designRow (coeffcn : ℕ → ℚ → ℕ → ℚ) (fitfor : List Bool) (nchannels : ℕ)
    (p : RecalPeakInfo) : List ℚ :=
  (freeIndices fitfor).map (fun i => coeffcn i p.peakMeanBinNumber nchannels / |energyUncert p|)

/-- The design matrix `A`. -/
def designMatrix (coeffcn : ℕ → ℚ → ℕ → ℚ) (fitfor : List Bool) (nchannels : ℕ)
    (peaks : List RecalPeakInfo) : List (List ℚ) :=
  peaks.map (designRow coeffcn fitfor nchannels)

/-- The contribution of the fixed (not-fitted) coefficients at a peak, which
line 222 subtracts from the target energy. -/
def fixedContribution (coeffcn : ℕ → ℚ → ℕ → ℚ) (fitfor : List Bool) (nchannels : ℕ)
    (coefs : List ℚ) (p : RecalPeakInfo) : ℚ :=
  (((List.range fitfor.length).filter (fun i => !(fitfor.getD i false))).map
    (fun i => coefs.getD i 0 * coeffcn i p.peakMeanBinNumber nchannels)).sum

/-- Entry of the target vector `b` (lines 208-226): the peak energy, minus the
deviation-pair correction, minus the fixed coefficients' contribution, all
weighted by the inverse energy uncertainty. -/
def targetEntry (devcorr : ℚ → ℚ) (coeffcn : ℕ → ℚ → ℕ → ℚ) (fitfor : List Bool)
    (nchannels : ℕ) (coefs : List ℚ) (p : RecalPeakInfo) : ℚ :=
  (p.photopeakEnergy - devcorr p.photopeakEnergy
    - fixedContribution coeffcn fitfor nchannels coefs p) / |energyUncert p|

/-- The target vector `b`. -/
def targetVec (devcorr : ℚ → ℚ) (coeffcn : ℕ → ℚ → ℕ → ℚ) (fitfor : List Bool)
    (nchannels : ℕ) (coefs : List ℚ) (peaks : List RecalPeakInfo) : List ℚ :=
  peaks.map (targetEntry devcorr coeffcn fitfor nchannels coefs)

/-- The normal-equations matrix `alpha = Aᵀ·A` (line 230). -/
def normalMat (coeffcn : ℕ → ℚ → ℕ → ℚ) (fitfor : List Bool) (nchannels : ℕ)
    (peaks : List RecalPeakInfo) : List (List ℚ) :=
  matMul (matTr (designMatrix coeffcn fitfor nchannels peaks))
    (designMatrix coeffcn fitfor nchannels peaks)

/-- The solved free-coefficient vector `a = C·(Aᵀ·b)` (lines 236-237). -/
def solveVec (devcorr : ℚ → ℚ) (coeffcn : ℕ → ℚ → ℕ → ℚ) (fitfor : List Bool)
    (nchannels : ℕ) (coefs : List ℚ) (peaks : List RecalPeakInfo)
    (cmat : List (List ℚ)) : List ℚ :=
  matVec cmat (matVec (matTr (designMatrix coeffcn fitfor nchannels peaks))
    (targetVec devcorr coeffcn fitfor nchannels coefs peaks))

/-- `std::vector::resize(n, 0.0)`: truncate or zero-pad to length `n`. -/
def resizeQ (xs : List ℚ) (n : ℕ) : List ℚ :=
  xs.take n ++ List.replicate (n - xs.length) 0

/-- The output coefficients (lines 239-254): free entries take the solved
values in order, fixed entries keep the (resized) input values. -/
def outCoefs (fitfor : List Bool) (coefsResized solved : List ℚ) : List ℚ :=
  (List.range fitfor.length).map (fun i =>
    if fitfor.getD i false then solved.getD (freePos fitfor i) 0 else coefsResized.getD i 0)

/-- The output uncertainties (lines 239-254): free entries take
`sqrt(C(col,col))`, fixed entries are set to `0`. -/
def outUncerts (sqrtfn : ℚ → ℚ) (fitfor : List Bool) (cmat : List (List ℚ)) : List ℚ :=
  (List.range fitfor.length).map (fun i =>
    if fitfor.getD i false then
      sqrtfn ((cmat.getD (freePos fitfor i) []).getD (freePos fitfor i) 0)
    else 0)

/-- The chi-square of the fit (lines 256-264), using the updated coefficient
vector and the deviation-pair correction of the predicted energy. -/
def chi2Sum (devapply : ℚ → ℚ) (coeffcn : ℕ → ℚ → ℕ → ℚ) (fitfor : List Bool)
    (nchannels : ℕ) (oc : List ℚ) (peaks : List RecalPeakInfo) : ℚ :=
  (peaks.map (fun p =>
    let y := ((List.range fitfor.length).map
      (fun i => oc.getD i 0 * coeffcn i p.peakMeanBinNumber nchannels)).sum
    ((y + devapply y - p.photopeakEnergy) / energyUncert p) ^ 2)).sum

/-- The triple returned (by out-parameters and return value) from
`fit_energy_cal_imp`. -/
structure FitResult where
  coefs : List ℚ
  uncerts : List ℚ
  chi2 : ℚ
deriving DecidableEq

/-- The successful-fit result of `fit_energy_cal_imp` given the inverted
normal matrix `cmat`. -/
def fitResultOf (devcorr devapply sqrtfn : ℚ → ℚ) (coeffcn : ℕ → ℚ → ℕ → ℚ)
    (peaks : List RecalPeakInfo) (fitfor : List Bool) (nchannels : ℕ)
    (coefs : List ℚ) (cmat : List (List ℚ)) : FitResult :=
  { coefs := outCoefs fitfor (resizeQ coefs fitfor.length)
      (solveVec devcorr coeffcn fitfor nchannels coefs peaks cmat)
    uncerts := outUncerts sqrtfn fitfor cmat
    chi2 := chi2Sum devapply coeffcn fitfor nchannels
      (outCoefs fitfor (resizeQ coefs fitfor.length)
        (solveVec devcorr coeffcn fitfor nchannels coefs peaks cmat)) peaks }

/-- `fit_energy_cal_imp` (EnergyCal.cpp lines 162-267), reached through
`EnergyCal::fit_energy_cal_poly` and `EnergyCal::fit_energy_cal_frf` with
`coeffcn` instantiated to `poly_coef_fcn` resp. `frf_coef_fcn`. -/
def fit_energy_cal_imp (devcorr devapply sqrtfn : ℚ → ℚ) (coeffcn : ℕ → ℚ → ℕ → ℚ)
    (peakinfos : List RecalPeakInfo) (fitfor : List Bool) (nchannels : ℕ)
    (coefs : List ℚ) : Except String FitResult :=
  if peakinfos.length < 1 then
    .error ("Must have at least one peak")
  else if fitfor.count true < 1 then
    .error ("Must fit for at least one coefficient")
  else if peakinfos.length < fitfor.count true then
    .error ("Must have at least as many peaks as coefficients fitting for")
  else if fitfor.count true ≠ fitfor.length ∧ coefs.length ≠ fitfor.length then
    .error ("You must supply input coefficient when any of the coefficients are fixed")
  else
    match matInvert (normalMat coeffcn fitfor nchannels peakinfos) with
    | none => .error ("Trouble inverting least linear squares matrix")
    | some cmat =>
      .ok (fitResultOf devcorr devapply sqrtfn coeffcn peakinfos fitfor nchannels coefs cmat)

instance {ε α : Type} [DecidableEq ε] [DecidableEq α] : DecidableEq (Except ε α) := fun
  | .ok a, .ok b =>
    decidable_of_iff (a = b) (by
      constructor
      · intro h; rw [h]
      · intro h; injection h)
  | .ok _, .error _ => .isFalse (fun h => Except.noConfusion h)
  | .error _, .ok _ => .isFalse (fun h => Except.noConfusion h)
  | .error e, .error f =>
    decidable_of_iff (e = f) (by
      constructor
      · intro h; rw [h]
      · intro h; injection h)

/-! ### `fit_from_channel_energies_imp` (EnergyCal.cpp lines 270-333)
Fits calibration coefficients directly to an ordered array of lower channel
energies.  NOTE (faithful to the source): the basis callback is invoked as
`coeffcn(row, col, nchannel)`, so the row index is passed in the `order`
position and the column index in the `channel` position. -/

/-- The strictly-increasing input check of lines 288-290: every consecutive
pair must strictly increase (the C++ loop throws at the first violation). -/
def strictlyIncreasingQ (ces : List ℚ) : Bool :=
  (List.range (ces.length - 1)).all (fun i => ces.getD i 0 < ces.getD (i + 1) 0)

/-- The design matrix of lines 297-307 (weights `uncert` are `1.0`):
entry `(row, col)` is `coeffcn(row, col, nchannel)`. -/
def ceDesignMatrix (coeffcn : ℕ → ℚ → ℕ → ℚ) (ncoeffs : ℕ) (nenergies nchannel : ℕ) :
    List (List ℚ) :=
  (List.range nenergies).map (fun row =>
    (List.range ncoeffs).map (fun col => coeffcn row (col : ℚ) nchannel))

/-- The normal-equations matrix `alpha` of line 310. -/
def ceNormalMat (coeffcn : ℕ → ℚ → ℕ → ℚ) (ncoeffs : ℕ) (nenergies nchannel : ℕ) :
    List (List ℚ) :=
  matMul (matTr (ceDesignMatrix coeffcn ncoeffs nenergies nchannel))
    (ceDesignMatrix coeffcn ncoeffs nenergies nchannel)

/-- The fitted coefficients `a = C·(Aᵀ·b)` of lines 316-321. -/
def ceSolve (coeffcn : ℕ → ℚ → ℕ → ℚ) (ncoeffs : ℕ) (channel_energies : List ℚ)
    (cmat : List (List ℚ)) : List ℚ :=
  matVec cmat
    (matVec (matTr (ceDesignMatrix coeffcn ncoeffs channel_energies.length
        (channel_energies.length - 1)))
      channel_energies)

/-- The returned mean absolute reconstruction error of lines 323-332, again
with the row index passed in the `order` position of the basis callback. -/
def ceReconError (coeffcn : ℕ → ℚ → ℕ → ℚ) (ncoeffs : ℕ) (channel_energies cs : List ℚ) : ℚ :=
  ((List.range channel_energies.length).map (fun i =>
    |((List.range ncoeffs).map
        (fun col => cs.getD col 0 * coeffcn i (col : ℚ) (channel_energies.length - 1))).sum
      - channel_energies.getD i 0|)).sum / (channel_energies.length : ℚ)

/-- `fit_from_channel_energies_imp` (EnergyCal.cpp lines 270-333). -/
def fit_from_channel_energies_imp (coeffcn : ℕ → ℚ → ℕ → ℚ) (ncoeffs : ℕ)
    (channel_energies : List ℚ) : Except String (List ℚ × ℚ) :=
  if ncoeffs < 2 then
    .error ("fit_from_channel_energies_imp: You must request at least two coefficients")
  else if 6 ≤ ncoeffs then
    .error ("fit_from_channel_energies_imp: You must request less than 6 coefficients")
  else if channel_energies.length ≤ 6 then
    .error ("fit_from_channel_energies_imp: Input energies must have at least 6 entries")
  else if ¬ strictlyIncreasingQ channel_energies then
    .error ("fit_from_channel_energies_imp: Input energies must be stricktly increasing")
  else
    match matInvert (ceNormalMat coeffcn ncoeffs channel_energies.length
        (channel_energies.length - 1)) with
    | none => .error ("Trouble inverting least linear squares matrix")
    | some cmat =>
      .ok (ceSolve coeffcn ncoeffs channel_energies cmat,
        ceReconError coeffcn ncoeffs channel_energies
          (ceSolve coeffcn ncoeffs channel_energies cmat))

/-- `EnergyCal::fit_poly_from_channel_energies` (EnergyCal.cpp lines 363-368). -/
def fit_poly_from_channel_energies (ncoeffs : ℕ) (channel_energies : List ℚ) :
    Except String (List ℚ × ℚ) :=
  fit_from_channel_energies_imp poly_coef_fcn ncoeffs channel_energies

/-- `EnergyCal::fit_full_range_fraction_from_channel_energies`
(EnergyCal.cpp lines 372-381). -/
def fit_full_range_fraction_from_channel_energies (ncoeffs : ℕ)
    (channel_energies : List ℚ) : Except String (List ℚ × ℚ) :=
  if 5 ≤ ncoeffs then
    .error ("fit_full_range_fraction_from_channel_energies: You must request less than 5 coefficients")
  else
    fit_from_channel_energies_imp frf_coef_fcn ncoeffs channel_energies

/-! ### `fit_for_poly_coefs` and `fit_for_fullrangefraction_coefs`
(EnergyCal.cpp lines 70-103 and 106-145), the channel/energy-pair fitters used
by the calibration propagator. -/

/-- `fit_for_poly_coefs` (lines 70-103). -/
def fit_for_poly_coefs (channels_energies : List (ℚ × ℚ)) (poly_terms : ℕ) :
    Except String (List ℚ) :=
  let A := channels_energies.map (fun ce => (List.range poly_terms).map (fun col => ce.1 ^ col))
  match matInvert (matMul (matTr A) A) with
  | none => .error ("fit_for_poly_coefs(...): trouble inverting matrix")
  | some cmat => .ok (matVec cmat (matVec (matTr A) (channels_energies.map (fun ce => ce.2))))

/-- The column count of the design matrix allocated by
`fit_for_fullrangefraction_coefs` (line 113: `polyterms = min(nterms, 5)`,
line 116: `A(npoints, polyterms)`). -/
def frf_fit_polyterms (nterms : ℕ) : ℕ :=
  min nterms 5

/-- The `(row, column)` indices assigned by the matrix-filling loop of
`fit_for_fullrangefraction_coefs` (lines 119-128): columns
`0 .. min(4, polyterms) - 1` from the power loop, and — when `polyterms > 4`
— the literal index pair `(row, 5)` written by `A(row,5) = 1/(1+60x)`. -/
def frf_fit_write_indices (npoints nterms : ℕ) : List (ℕ × ℕ) :=
  ((List.range npoints).map (fun row =>
    ((List.range (min 4 (frf_fit_polyterms nterms))).map (fun col => (row, col)))
      ++ (if 4 < frf_fit_polyterms nterms then [(row, 5)] else []))).flatten

/-- The values assigned by that loop, paired with the flat row-major storage
index `row * polyterms + col` that the dense `ublas` matrix write lands on. -/
def frf_fit_flat_writes (channels_energies : List (ℚ × ℚ)) (nchannels nterms : ℕ) :
    List (ℕ × ℚ) :=
  ((List.range channels_energies.length).map (fun row =>
    let x := (channels_energies.getD row (0, 0)).1 / (nchannels : ℚ)
    ((List.range (min 4 (frf_fit_polyterms nterms))).map
        (fun col => (row * frf_fit_polyterms nterms + col, x ^ col)))
      ++ (if 4 < frf_fit_polyterms nterms then
            [(row * frf_fit_polyterms nterms + 5, 1 / (1 + 60 * x))]
          else []))).flatten

/-- `fit_for_fullrangefraction_coefs` (lines 106-145).  The dense storage of
the `npoints × polyterms` matrix is modelled flat and row-major; cells the
source loop never assigns (which C++ leaves uninitialized) are modelled as
`0`, writes beyond the allocation (the `A(row,5)` store of line 127, a heap
overflow on the last row) are dropped by `List.set`, and in-storage
out-of-row writes land where the flat index says — exactly the memory effect
of the out-of-bounds column index. -/
def fit_for_fullrangefraction_coefs (channels_energies : List (ℚ × ℚ))
    (nchannels nterms : ℕ) : Except String (List ℚ) :=
  let polyterms := frf_fit_polyterms nterms
  let npoints := channels_energies.length
  let storage := (frf_fit_flat_writes channels_energies nchannels nterms).foldl
    (fun st w => st.set w.1 w.2) (List.replicate (npoints * polyterms) (0 : ℚ))
  let A := (List.range npoints).map (fun row =>
    (List.range polyterms).map (fun col => storage.getD (row * polyterms + col) 0))
  match matInvert (matMul (matTr A) A) with
  | none => .error ("fit_for_fullrangefraction_coefs(...): trouble inverting matrix")
  | some cmat => .ok (matVec cmat (matVec (matTr A) (channels_energies.map (fun ce => ce.2))))

/-! ### `EnergyCal::propogate_energy_cal_change` (EnergyCal.cpp lines 386-567)
`SpecUtils::EnergyCalibration` and its numeric helpers are external
collaborators: the calibration value is modelled by a small record, and the
numeric routines enter as a bundle of function parameters.  A
`shared_ptr<const EnergyCalibration>` is an address paired with the pointee;
the C++ `orig_cal == new_cal` test compares addresses. -/

/-- `SpecUtils::EnergyCalType`. -/
inductive EnergyCalType : Type
  | Polynomial
  | FullRangeFraction
  | LowerChannelEdge
  | UnspecifiedUsingDefaultPolynomial
  | InvalidEquationType
deriving DecidableEq

/-- Boundary model of a `SpecUtils::EnergyCalibration` value. -/
structure EnergyCalibration where
  typ : EnergyCalType
  num_channels : ℕ
  coefficients : List ℚ
  deviation_pairs : List (ℚ × ℚ)
  channel_energies : List ℚ
  valid : Bool
deriving DecidableEq

/-- A non-null `shared_ptr<const SpecUtils::EnergyCalibration>`: the pointer
value (address) plus the pointee.  Identity equality is address equality. -/
structure CalRef where
  addr : ℕ
  cal : EnergyCalibration
deriving DecidableEq

/-- The `SpecUtils` numeric routines used by the propagator, as an external
collaborator bundle.  The deviation-pair arguments do not appear because the
source passes freshly default-constructed (empty) vectors (lines 419-421). -/
structure SpecUtilsFns where
  polynomial_energy : ℚ → List ℚ → ℚ
  fullrangefraction_energy : ℚ → List ℚ → ℕ → ℚ
  find_polynomial_channel : ℚ → List ℚ → ℕ → ℚ → ℚ
  find_fullrangefraction_channel : ℚ → List ℚ → ℕ → ℚ → ℚ
  channel_for_energy : EnergyCalibration → ℚ → ℚ
  energy_for_channel : EnergyCalibration → ℚ → ℚ

/-- Boundary model of `EnergyCalibration::set_lower_channel_energy`. -/
def mkLowerChannelCal (nchannel : ℕ) (lower : List ℚ) : EnergyCalibration :=
  { typ := .LowerChannelEdge, num_channels := nchannel, coefficients := [],
    deviation_pairs := [], channel_energies := lower, valid := true }

/-- Boundary model of `EnergyCalibration::set_polynomial`. -/
def mkPolynomialCal (nchannel : ℕ) (cs : List ℚ) (devs : List (ℚ × ℚ)) : EnergyCalibration :=
  { typ := .Polynomial, num_channels := nchannel, coefficients := cs,
    deviation_pairs := devs, channel_energies := [], valid := true }

/-- Boundary model of `EnergyCalibration::set_full_range_fraction`. -/
def mkFullRangeFractionCal (nchannel : ℕ) (cs : List ℚ) (devs : List (ℚ × ℚ)) :
    EnergyCalibration :=
  { typ := .FullRangeFraction, num_channels := nchannel, coefficients := cs,
    deviation_pairs := devs, channel_energies := [], valid := true }

/-- Result of the propagator, distinguishing the returned-as-is `other_cal`
reference (line 400) from a freshly `make_shared`d calibration. -/
inductive PropagateResult : Type
  | unchangedOther
  | fresh (cal : EnergyCalibration)
deriving DecidableEq

/-- The constraint pairs `(other_channel, new_disp_energy)` sampled by the
loop of lines 461-537.  `display_channel = ((order-i-1)*orig_num_channel)/(order-1)`
uses C++ unsigned integer division.  The switches on the calibration types
fall to the polynomial case for the degenerate enumerands that the source
marks unreachable (`assert(0)`). -/
def propagationSamples (fns : SpecUtilsFns) (oc nc otc : EnergyCalibration) : List (ℚ × ℚ) :=
  let order := max otc.coefficients.length
    (max oc.coefficients.length nc.coefficients.length)
  (List.range order).map (fun i =>
    let display_channel : ℕ := ((order - i - 1) * oc.num_channels) / (order - 1)
    let old_disp_energy : ℚ :=
      match oc.typ with
      | .FullRangeFraction =>
        fns.fullrangefraction_energy (display_channel : ℚ) oc.coefficients oc.num_channels
      | _ => fns.polynomial_energy (display_channel : ℚ) oc.coefficients
    let new_disp_energy : ℚ :=
      match oc.typ with
      | .FullRangeFraction =>
        fns.fullrangefraction_energy (display_channel : ℚ) nc.coefficients oc.num_channels
      | _ => fns.polynomial_energy (display_channel : ℚ) nc.coefficients
    let other_channel : ℚ :=
      match otc.typ with
      | .FullRangeFraction =>
        fns.find_fullrangefraction_channel old_disp_energy otc.coefficients
          otc.num_channels (1 / 100000)
      | _ => fns.find_polynomial_channel old_disp_energy otc.coefficients
          otc.num_channels (1 / 100000)
    (other_channel, new_disp_energy))

/-- The non-identity path of the propagator after the input checks
(lines 402-566): the lower-channel-edge special case, or sampling plus a
coefficient fit in the model of `other_cal`. -/
def propagateGeneral (fns : SpecUtilsFns) (oc nc otc : EnergyCalibration) :
    Except String PropagateResult :=
  if otc.typ = .LowerChannelEdge then
    if otc.channel_energies.length ≤ otc.num_channels then
      .error ("EnergyCal::propogate_energy_cal_change: really unexpected programing error")
    else
      .ok (.fresh (mkLowerChannelCal otc.num_channels
        ((List.range (otc.num_channels + 1)).map (fun i =>
          fns.energy_for_channel nc
            (fns.channel_for_energy oc (otc.channel_energies.getD i 0))))))
  else
    let order := max otc.coefficients.length
      (max oc.coefficients.length nc.coefficients.length)
    match otc.typ with
    | .FullRangeFraction =>
      match fit_for_fullrangefraction_coefs (propagationSamples fns oc nc otc)
          otc.num_channels order with
      | .error e => .error (e)
      | .ok cs => .ok (.fresh (mkFullRangeFractionCal otc.num_channels cs otc.deviation_pairs))
    | _ =>
      match fit_for_poly_coefs (propagationSamples fns oc nc otc) order with
      | .error e => .error (e)
      | .ok cs => .ok (.fresh (mkPolynomialCal otc.num_channels cs otc.deviation_pairs))

/-- `EnergyCal::propogate_energy_cal_change` (lines 386-567).  Null
`shared_ptr` arguments are `none`. -/
def propogate_energy_cal_change (fns : SpecUtilsFns)
    (orig_cal new_cal other_cal : Option CalRef) : Except String PropagateResult :=
  match orig_cal, new_cal, other_cal with
  | some oc, some nc, some otc =>
    if ¬ oc.cal.valid ∨ ¬ nc.cal.valid ∨ ¬ otc.cal.valid
        ∨ oc.cal.typ = .LowerChannelEdge ∨ nc.cal.typ = .LowerChannelEdge then
      .error ("EnergyCal::propogate_energy_cal_change invalid input")
    else if oc.addr = nc.addr then
      .ok .unchangedOther
    else
      propagateGeneral fns oc.cal nc.cal otc.cal
  | _, _, _ => .error ("EnergyCal::propogate_energy_cal_change invalid input")

/-! ### Engine configuration cache (Analysis.cpp lines 180-191 and 344-417)
The five globals `g_gad_drf`, `g_gad_nchannel`, `g_gad_calibrated`,
`g_num_detectors`, `g_gad_cal_adjust`, and the two initialization wrappers.
The GADRAS initialization entry points are external collaborators passed as
function parameters returning the engine status code. -/

/-- `AutoGainAdjustType` (Analysis.cpp lines 173-176). -/
inductive AutoGainAdjustType : Type
  | None
  | K40
  | Th232
deriving DecidableEq

/-- The five cache globals of Analysis.cpp lines 187-191. -/
structure GadState where
  drf : String
  nchannel : Int
  calibrated : Bool
  num_detectors : Int
  cal_adjust : AutoGainAdjustType
deriving DecidableEq

/-- The initial values of the globals (lines 187-191). -/
def initialGadState : GadState :=
  { drf := "", nchannel := -1, calibrated := false, num_detectors := -1,
    cal_adjust := .None }

/-- The `calTag` chosen by lines 358-364. -/
def calTagOf : AutoGainAdjustType → String
  | .None => ""
  | .K40 => "k"
  | .Th232 => "t"

/-- Return value, updated cache state, and whether the engine initialization
entry point was invoked. -/
structure InitOutcome where
  rval : Int
  state : GadState
  engineCalled : Bool
deriving DecidableEq

/-- `init_gadras_drf_raw` (Analysis.cpp lines 346-389).  `engine` models
`g_InitializeIsotopeIdRaw` applied to the fixed application folder. -/
def init_gadras_drf_raw (engine : String → Int → Int → String → Int) (st : GadState)
    (drf : String) (nchannel num_detectors : Int) (cal_type : AutoGainAdjustType) :
    InitOutcome :=
  if drf = st.drf ∧ nchannel = st.nchannel ∧ st.calibrated = false
      ∧ st.num_detectors = num_detectors ∧ st.cal_adjust = cal_type then
    { rval := 0, state := st, engineCalled := false }
  else
    let rval := engine drf nchannel num_detectors (calTagOf cal_type)
    if rval = 0 then
      { rval := rval,
        state := { drf := drf, nchannel := nchannel, calibrated := false,
                   num_detectors := num_detectors, cal_adjust := cal_type },
        engineCalled := true }
    else
      { rval := rval,
        state := { drf := "", nchannel := -1, calibrated := false,
                   num_detectors := -1, cal_adjust := .None },
        engineCalled := true }

/-- `init_gadras_drf_calibrated` (Analysis.cpp lines 394-417).  `engine`
models `initialize_isotope_id_calibrated` applied to the fixed application
folder.  Note that neither the success nor the failure branch touches
`g_num_detectors` or `g_gad_cal_adjust`. -/
def init_gadras_drf_calibrated (engine : String → Int → Int) (st : GadState)
    (drf : String) (nchannel : Int) : InitOutcome :=
  if drf = st.drf ∧ nchannel = st.nchannel ∧ st.calibrated = true then
    { rval := 0, state := st, engineCalled := false }
  else
    let rval := engine drf nchannel
    if rval = 0 then
      { rval := rval,
        state := { drf := drf, nchannel := nchannel, calibrated := true,
                   num_detectors := st.num_detectors, cal_adjust := st.cal_adjust },
        engineCalled := true }
    else
      { rval := rval,
        state := { drf := "", nchannel := -1, calibrated := false,
                   num_detectors := st.num_detectors, cal_adjust := st.cal_adjust },
        engineCalled := true }

/-! ### Search-mode foreground windowing (Analysis.cpp lines 1517-1548)
The walk over `sample_numbers` that builds the per-window sample sets.
Faithful to the source: the inner accumulation loop of lines 1529-1538
declares its own `sample_iter`, shadowing the outer iterator, so every
accumulation restarts from `begin(sample_numbers)`; and inside the outer
loop the outer `sample_iter` is never `end(...)`, so the
`real_time <= 0.00001f` test of lines 1543-1548 always throws rather than
`break`s.  Samples are the ordered `std::set<int>` iteration; `rt` models the
`real_time_of_sample` lambda (lines 899-911). -/

/-- One step of the inner accumulation loop: process a sample only while the
accumulated real time is below `0.425`, skipping background samples. -/
def windowStep (bg : List Int) (rt : Int → ℚ) (acc : ℚ × List Int) (s : Int) : ℚ × List Int :=
  if acc.1 < 17 / 40 then
    if s ∈ bg then acc
    else (acc.1 + rt s, acc.2 ++ [s])
  else acc

/-- The inner loop of lines 1529-1538, which (because of the shadowed
iterator) always starts at the first sample number. -/
def windowFromStart (sample_numbers bg : List Int) (rt : Int → ℚ) : ℚ × List Int :=
  sample_numbers.foldl (windowStep bg rt) (0, [])

/-- The outer loop of lines 1520-1548: one iteration per sample number, each
computing a window from the start of the sample list, pushing it onto
`real_time_and_samples` (line 1550) or throwing one of the two logic
errors. -/
def search_windows (sample_numbers bg : List Int) (rt : Int → ℚ) :
    Except String (List (ℚ × List Int)) :=
  sample_numbers.foldlM (fun acc _s =>
    let w := windowFromStart sample_numbers bg rt
    if w.2 = [] then
      .error ("Logic-error: did the file only contain background?")
    else if w.1 ≤ 1 / 100000 then
      .error ("Logic-error: zero-second time interval sum, but we didnt reach end of samples")
    else
      .ok (acc ++ [w])) []

/-- The real times of the spec Scenario C: sample 1 is a 120 s background,
samples 2-10 are 0.1 s foreground slices. -/
def scenarioC_rt : Int → ℚ :=
  fun s => if s = 1 then 120 else if 2 ≤ s ∧ s ≤ 10 then 1 / 10 else 0

/-! ### Result delivery and the strategy boundary (Analysis.cpp lines 828-859
and 1753-1790)
The `try`/`catch` wrapping each analysis strategy body, and the callback
delivery tail shared by `do_simple_analysis` and `do_search_analysis`. -/

/-- `Analysis::AnalysisOutput` (Analysis.h lines 84-139), without the
spectrum-file pointer. -/
structure AnalysisOutput where
  ana_number : ℕ
  drf_used : String
  gadras_intialization_error : Int
  gadras_analysis_error : Int
  error_message : String
  analysis_warnings : List String
  stuff_of_interest : ℚ
  rate_not_norm : ℚ
  isotopes : String
  chi_sqr : ℚ
  alarm_basis_duration : ℚ
  isotope_names : List String
  isotope_types : List String
  isotope_count_rates : List ℚ
  isotope_confidences : List ℚ
  isotope_confidence_strs : List String
deriving DecidableEq

/-- The `catch` boundary (lines 828-832 / 1753-1762): a strategy body either
completes with a result, or throws carrying the message and the result as
mutated so far; the handler stores `e.what()` into `error_message` and never
rethrows. -/
def strategy_dispatch (body : Except (String × AnalysisOutput) AnalysisOutput) :
    AnalysisOutput :=
  match body with
  | .ok r => r
  | .error me => { me.2 with error_message := me.1 }

/-- The number of times the request callback runs under the delivery tail of
lines 834-858 / 1765-1789: posted to the session when a server exists and the
session id is non-empty, invoked directly when the session id is empty, and
skipped (with an error log) when a session id is present but no server
exists. -/
def callback_invocations (callbackPresent : Bool) (wt_app_id : String)
    (serverExists : Bool) : ℕ :=
  if callbackPresent then
    if serverExists ∧ wt_app_id ≠ "" then 1
    else if wt_app_id = "" then 1
    else 0
  else 0

/-! ### `AnalysisOutput::toJson` (Analysis.cpp lines 2535-2604)
The `Wt::Json::Object` is modelled as an association list in insertion
order. -/

/-- A JSON value as produced by `toJson`. -/
inductive JVal : Type
  | jnum (q : ℚ)
  | jint (i : Int)
  | jstr (s : String)
  | jarr (a : List JVal)
  | jobj (o : List (String × JVal))

/-- Field lookup in a JSON object. -/
def jget (o : List (String × JVal)) (k : String) : Option JVal :=
  match o with
  | [] => none
  | kv :: rest => if kv.1 = k then some kv.2 else jget rest k

/-- The number of per-isotope records emitted (lines 2573-2583): the minimum
of the five parallel array sizes. -/
def numIsotopeRecords (o : AnalysisOutput) : ℕ :=
  min (min (min (min o.isotope_names.length o.isotope_types.length)
    o.isotope_count_rates.length) o.isotope_confidences.length)
    o.isotope_confidence_strs.length

/-- The record for isotope `i` (lines 2585-2601). -/
def isotopeRecord (o : AnalysisOutput) (i : ℕ) : JVal :=
  .jobj [("name", .jstr (o.isotope_names.getD i "")),
         ("type", .jstr (o.isotope_types.getD i "")),
         ("countRate", .jnum (o.isotope_count_rates.getD i 0)),
         ("confidence", .jnum (o.isotope_confidences.getD i 0)),
         ("confidenceStr", .jstr (o.isotope_confidence_strs.getD i ""))]

/-- The `isotopes` array of the success branch. -/
def isotopeRecords (o : AnalysisOutput) : List JVal :=
  (List.range (numIsotopeRecords o)).map (isotopeRecord o)

/-- `AnalysisOutput::toJson` (lines 2535-2604). -/
def AnalysisOutput.toJson (o : AnalysisOutput) : List (String × JVal) :=
  [("analysisError", JVal.jint o.gadras_analysis_error)]
    ++ (if o.error_message ≠ "" then [("errorMessage", JVal.jstr o.error_message)] else [])
    ++ (if o.gadras_intialization_error < 0 ∨ o.gadras_analysis_error < 0 then
          [("code", JVal.jint 6)]
            ++ (if o.gadras_intialization_error < 0 then
                  [("initializationError", JVal.jint o.gadras_intialization_error)]
                else [])
        else
          [("code", JVal.jint 0)]
            ++ (if o.analysis_warnings ≠ [] then
                  [("analysisWarnings", JVal.jarr (o.analysis_warnings.map JVal.jstr))]
                else [])
            ++ [("drf", JVal.jstr o.drf_used),
                ("stuffOfInterest", JVal.jnum o.stuff_of_interest),
                ("isotopeString", JVal.jstr o.isotopes),
                ("chi2", JVal.jnum o.chi_sqr),
                ("alarmBasisDuration", JVal.jnum o.alarm_basis_duration),
                ("isotopes", JVal.jarr (isotopeRecords o))])

/-! ### Input validation of `do_simple_analysis` (Analysis.cpp lines 437-481)
The checks performed before the engine-initialization call.  The spectrum
container comes from the external `SpecUtils` parser; only the fields the
checks read are modelled. -/

/-- `SpecUtils::SourceType`. -/
inductive SourceType : Type
  | IntrinsicActivity
  | Calibration
  | Background
  | Foreground
  | Unknown
deriving DecidableEq

/-- Boundary model of a `SpecUtils::Measurement`: the fields read by the
validation code. -/
structure Measurement where
  num_gamma_channels : ℕ
  source_type : SourceType
deriving DecidableEq

/-- Boundary model of a `SpecUtils::SpecFile`. -/
structure SpecFile where
  measurements : List Measurement
deriving DecidableEq

/-- `SpecUtils::SpecFile::num_gamma_channels` (external collaborator): the
gamma channel count of the first measurement that has gamma data. -/
def SpecFile.num_gamma_channels (f : SpecFile) : ℕ :=
  ((f.measurements.find? (fun m => !(m.num_gamma_channels == 0))).map
    (fun m => m.num_gamma_channels)).getD 0

/-- The per-measurement loop of lines 451-472: throws at the first
measurement whose channel count differs from the file count or which is an
intrinsic-activity or calibration spectrum; otherwise tallies the foreground
(`Foreground` or `Unknown` source type) and background measurements. -/
def classifyMeasurements (nchannel : ℕ) : List Measurement → Except String (ℕ × ℕ)
  | [] => .ok (0, 0)
  | m :: rest =>
    if m.num_gamma_channels ≠ nchannel then
      .error ("Measurements somehow have different number of channels.")
    else if m.source_type = .IntrinsicActivity ∨ m.source_type = .Calibration then
      .error ("Somehow an intrinsic or calibration spectrum made it to analysis")
    else
      match classifyMeasurements nchannel rest with
      | .error e => .error (e)
      | .ok nfnb =>
        if m.source_type = .Background then .ok (nfnb.1, nfnb.2 + 1)
        else .ok (nfnb.1 + 1, nfnb.2)

/-- Error-propagating sequencing of a fallible step (a C++ statement that
may throw) with its continuation. -/
def exceptThen {α β : Type} (x : Except String α) (k : α → Except String β) :
    Except String β :=
  match x with
  | .error e => .error (e)
  | .ok a => k a

theorem exceptThen_ok {α β : Type} (a : α) (k : α → Except String β) :
    exceptThen (.ok a) k = k a := rfl

theorem exceptThen_error {α β : Type} (e : String) (k : α → Except String β) :
    exceptThen (.error (e)) k = .error (e) := rfl

/-- The input validation prefix of `do_simple_analysis` (lines 437-481):
everything checked before `init_gadras_drf_calibrated` is called. -/
def do_simple_analysis_validate : Option SpecFile → Except String Unit
  | none => .error ("Invalid input SpecUtils::SpecFile ptr")
  | some f =>
    if f.measurements.length ≠ 1 ∧ f.measurements.length ≠ 2 then
      .error ("Invalid number of measurements")
    else
      exceptThen (classifyMeasurements f.num_gamma_channels f.measurements) (fun nfnb =>
        if nfnb.1 ≠ 1 then
          .error ("Somehow we didnt send a single foreground to analysis")
        else if 1 < nfnb.2 then
          .error ("Somehow sent more than one background to analysis")
        else if f.num_gamma_channels < 32 ∨ 64 * 1024 < f.num_gamma_channels then
          .error ("Invalid number of channels")
        else
          .ok ())

/-! ## Helper lemmas -/

theorem getD_range_map {α : Type} (f : ℕ → α) (n i : ℕ) (d : α) (h : i < n) :
    ((List.range n).map f).getD i d = f i := by
  rw [List.getD_eq_getElem?_getD]
  simp [List.getElem?_map, List.getElem?_range, h]

theorem resizeQ_eq_self {xs : List ℚ} {n : ℕ} (h : xs.length = n) : resizeQ xs n = xs := by
  subst h
  simp [resizeQ]

theorem count_true_ne_length_of_false {l : List Bool} {i : ℕ} (h : i < l.length)
    (hf : l.getD i false = false) : l.count true ≠ l.length := by
  intro hc
  have hall := (List.count_eq_length).mp hc
  have hmem : l.getD i false ∈ l := by
    rw [List.getD_eq_getElem l false h]
    exact List.getElem_mem h
  have := hall _ hmem
  rw [hf] at this
  simp at this

/-! ## C7 -/

/-- C7: the full-range-fraction design-matrix filler is claimed to put the
`1/(1+60x)` term at an in-bounds conventional column for 5 requested terms;
in fact with `nterms = 5` the matrix is allocated with `polyterms = 5`
columns (indices 0-4) while line 127 assigns column index 5, which is out of
bounds for every row.  This theorem evaluates the embedded write-index model
at the failing input. -/
theorem frf_design_write_out_of_bounds :
    (0, 5) ∈ frf_fit_write_indices 5 5
    ∧ frf_fit_polyterms 5 = 5
    ∧ ¬ ((5 : ℕ) < frf_fit_polyterms 5)
    ∧ (∀ rc ∈ frf_fit_write_indices 5 4, rc.2 < frf_fit_polyterms 4) := by
  decide

/-! ## C2 -/

/-- C2 counterexample: the claim says a failing initialization call resets
the cache to the uninitialized sentinels including detector count `-1`; but
a failing calibrated-mode initialization leaves `g_num_detectors` (and the
gain-adjust mode) untouched, here still `3`. -/
theorem calibrated_init_failure_keeps_detector_count :
    (init_gadras_drf_calibrated (fun _ _ => -4)
        { drf := "Ge3x3", nchannel := 1024, calibrated := false, num_detectors := 3,
          cal_adjust := .K40 } ("NaI") 512).rval = -4
    ∧ (init_gadras_drf_calibrated (fun _ _ => -4)
        { drf := "Ge3x3", nchannel := 1024, calibrated := false, num_detectors := 3,
          cal_adjust := .K40 } ("NaI") 512).state.num_detectors = 3
    ∧ (init_gadras_drf_calibrated (fun _ _ => -4)
        { drf := "Ge3x3", nchannel := 1024, calibrated := false, num_detectors := 3,
          cal_adjust := .K40 } ("NaI") 512).state.num_detectors ≠ -1 := by
  decide

/-- C2 (amended): a second consecutive initialization request with a tuple
whose first request succeeded returns success without calling the engine
again, for both the raw and the calibrated variant; a failing raw
initialization resets all five cached fields to the sentinels; a failing
calibrated initialization resets only the DRF, channel count and calibrated
flag, leaving detector count and gain-adjust mode unchanged; and whenever
the cache misses, the engine is called exactly once. -/
theorem engine_init_cache_behavior (eraw : String → Int → Int → String → Int)
    (ecal : String → Int → Int) (s : GadState) (d : String) (n det : Int)
    (t : AutoGainAdjustType) :
    ((init_gadras_drf_raw eraw s d n det t).rval = 0 →
      init_gadras_drf_raw eraw (init_gadras_drf_raw eraw s d n det t).state d n det t
        = { rval := 0, state := (init_gadras_drf_raw eraw s d n det t).state,
            engineCalled := false })
    ∧ ((init_gadras_drf_calibrated ecal s d n).rval = 0 →
      init_gadras_drf_calibrated ecal (init_gadras_drf_calibrated ecal s d n).state d n
        = { rval := 0, state := (init_gadras_drf_calibrated ecal s d n).state,
            engineCalled := false })
    ∧ ((init_gadras_drf_raw eraw s d n det t).rval ≠ 0 →
      (init_gadras_drf_raw eraw s d n det t).state = initialGadState)
    ∧ ((init_gadras_drf_calibrated ecal s d n).rval ≠ 0 →
      (init_gadras_drf_calibrated ecal s d n).state
        = { drf := "", nchannel := -1, calibrated := false,
            num_detectors := s.num_detectors, cal_adjust := s.cal_adjust })
    ∧ (¬ (d = s.drf ∧ n = s.nchannel ∧ s.calibrated = false
            ∧ s.num_detectors = det ∧ s.cal_adjust = t) →
        (init_gadras_drf_raw eraw s d n det t).engineCalled = true)
    ∧ (¬ (d = s.drf ∧ n = s.nchannel ∧ s.calibrated = true) →
        (init_gadras_drf_calibrated ecal s d n).engineCalled = true) := by
  refine ⟨?_, ?_, ?_, ?_, ?_, ?_⟩
  · intro h0
    by_cases h : d = s.drf ∧ n = s.nchannel ∧ s.calibrated = false
        ∧ s.num_detectors = det ∧ s.cal_adjust = t
    · simp only [init_gadras_drf_raw, if_pos h]
    · by_cases h2 : eraw d n det (calTagOf t) = 0
      · simp [init_gadras_drf_raw, if_neg h, h2]
      · exfalso
        simp [init_gadras_drf_raw, if_neg h, h2] at h0
  · intro h0
    by_cases h : d = s.drf ∧ n = s.nchannel ∧ s.calibrated = true
    · simp only [init_gadras_drf_calibrated, if_pos h]
    · by_cases h2 : ecal d n = 0
      · simp [init_gadras_drf_calibrated, if_neg h, h2]
      · exfalso
        simp [init_gadras_drf_calibrated, if_neg h, h2] at h0
  · intro h0
    by_cases h : d = s.drf ∧ n = s.nchannel ∧ s.calibrated = false
        ∧ s.num_detectors = det ∧ s.cal_adjust = t
    · simp [init_gadras_drf_raw, if_pos h] at h0
    · by_cases h2 : eraw d n det (calTagOf t) = 0
      · simp [init_gadras_drf_raw, if_neg h, h2] at h0
      · simp [init_gadras_drf_raw, if_neg h, h2, initialGadState]
  · intro h0
    by_cases h : d = s.drf ∧ n = s.nchannel ∧ s.calibrated = true
    · simp [init_gadras_drf_calibrated, if_pos h] at h0
    · by_cases h2 : ecal d n = 0
      · simp [init_gadras_drf_calibrated, if_neg h, h2] at h0
      · simp [init_gadras_drf_calibrated, if_neg h, h2]
  · intro h
    by_cases h2 : eraw d n det (calTagOf t) = 0 <;>
      simp [init_gadras_drf_raw, if_neg h, h2]
  · intro h
    by_cases h2 : ecal d n = 0 <;>
      simp [init_gadras_drf_calibrated, if_neg h, h2]

/-- C2 witness: the amended behavior evaluated at concrete engines, states
and configuration tuples. -/
theorem engine_init_cache_behavior_witness :
    (init_gadras_drf_raw (fun _ _ _ _ => 0)
        (init_gadras_drf_raw (fun _ _ _ _ => 0) initialGadState ("IdentiFINDER") 1024 2 .K40).state
        ("IdentiFINDER") 1024 2 .K40
      = { rval := 0,
          state := (init_gadras_drf_raw (fun _ _ _ _ => 0) initialGadState
            ("IdentiFINDER") 1024 2 .K40).state,
          engineCalled := false })
    ∧ (init_gadras_drf_calibrated (fun _ _ => 0)
        (init_gadras_drf_calibrated (fun _ _ => 0) initialGadState ("IdentiFINDER") 1024).state
        ("IdentiFINDER") 1024
      = { rval := 0,
          state := (init_gadras_drf_calibrated (fun _ _ => 0) initialGadState
            ("IdentiFINDER") 1024).state,
          engineCalled := false })
    ∧ ((init_gadras_drf_raw (fun _ _ _ _ => -2) initialGadState ("IdentiFINDER") 1024 2 .K40).state
        = initialGadState)
    ∧ ((init_gadras_drf_calibrated (fun _ _ => -2)
        { drf := "Ge3x3", nchannel := 8192, calibrated := true, num_detectors := 7,
          cal_adjust := .Th232 } ("IdentiFINDER") 1024).state
      = { drf := "", nchannel := -1, calibrated := false, num_detectors := 7,
          cal_adjust := .Th232 }) := by
  refine ⟨?_, ?_, ?_, ?_⟩
  · exact (engine_init_cache_behavior (fun _ _ _ _ => 0) (fun _ _ => 0) initialGadState
      ("IdentiFINDER") 1024 2 .K40).1 (by decide)
  · exact (engine_init_cache_behavior (fun _ _ _ _ => 0) (fun _ _ => 0) initialGadState
      ("IdentiFINDER") 1024 2 .K40).2.1 (by decide)
  · exact (engine_init_cache_behavior (fun _ _ _ _ => -2) (fun _ _ => -2) initialGadState
      ("IdentiFINDER") 1024 2 .K40).2.2.1 (by decide)
  · exact (engine_init_cache_behavior (fun _ _ _ _ => -2) (fun _ _ => -2)
      { drf := "Ge3x3", nchannel := 8192, calibrated := true, num_detectors := 7,
        cal_adjust := .Th232 } ("IdentiFINDER") 1024 2 .K40).2.2.2.1 (by decide)

/-! ## C3 -/

/-- A concrete default-like `AnalysisOutput` value used by witnesses. -/
def sampleOutput : AnalysisOutput :=
  { ana_number := 1, drf_used := "IdentiFINDER", gadras_intialization_error := -999,
    gadras_analysis_error := -999, error_message := "", analysis_warnings := [],
    stuff_of_interest := 0, rate_not_norm := 0, isotopes := "", chi_sqr := -1,
    alarm_basis_duration := -1, isotope_names := [], isotope_types := [],
    isotope_count_rates := [], isotope_confidences := [], isotope_confidence_strs := [] }

/-- C3 counterexample: a request processed with a non-empty callback but a
non-empty session id and no server instance runs its callback zero times,
not exactly once (Analysis.cpp lines 853-857 / 1784-1788 log an error and
skip the callback). -/
theorem callback_skipped_without_server :
    callback_invocations true ("session-7") false = 0
    ∧ callback_invocations true ("session-7") false ≠ 1 := by
  decide

/-- C3 (amended): for every request processed by the worker with a non-empty
callback, the callback runs exactly once provided the session id is empty or
a server instance exists (it is skipped with an error log when a session id
is present without a server); and no exception escapes the per-request
dispatch: every thrown error is absorbed by the strategy boundary, which
stores the message into the delivered output's `error_message`. -/
theorem dispatch_callback_and_error_boundary
    (body : Except (String × AnalysisOutput) AnalysisOutput) (cb : Bool)
    (wt_app_id : String) (srv : Bool) :
    (cb = true → (wt_app_id = "" ∨ srv = true) →
      callback_invocations cb wt_app_id srv = 1)
    ∧ (∀ msg resultSoFar, body = .error (msg, resultSoFar) →
        (strategy_dispatch body).error_message = msg) := by
  constructor
  · intro hcb hw
    subst hcb
    rcases hw with hw | hw
    · subst hw
      simp [callback_invocations]
    · subst hw
      by_cases he : wt_app_id = ""
      · simp [callback_invocations, he]
      · simp [callback_invocations, he]
  · intro msg resultSoFar hb
    rw [hb]
    simp [strategy_dispatch]

/-- C3 witness: the amended behavior at concrete inputs. -/
theorem dispatch_callback_and_error_boundary_witness :
    callback_invocations true ("") false = 1
    ∧ (strategy_dispatch (.error (("Invalid number of measurements"), sampleOutput))).error_message
        = "Invalid number of measurements" := by
  constructor
  · exact (dispatch_callback_and_error_boundary (.ok sampleOutput) true ("") false).1
      rfl (Or.inl rfl)
  · exact (dispatch_callback_and_error_boundary
      (.error (("Invalid number of measurements"), sampleOutput)) true ("") false).2
      ("Invalid number of measurements") sampleOutput rfl

/-! ## C1 -/

/-- C1: evaluated on the spec Scenario C (sample 1 a 120 s background,
samples 2-10 foreground 0.1 s slices), the foreground windowing of
`do_search_analysis` does NOT produce 3 successive windows consuming each
sample once: because the inner loop of lines 1529-1538 shadows the outer
iterator and restarts from the first sample, it produces ten identical
windows, each the first `≥ 0.425 s` of foreground — samples 2-6 with 0.5 s —
and samples 7-10 are never placed in any window. -/
theorem search_windows_scenarioC :
    search_windows [1, 2, 3, 4, 5, 6, 7, 8, 9, 10] [1] scenarioC_rt
      = .ok (List.replicate 10 (1 / 2, [2, 3, 4, 5, 6]))
    ∧ (List.replicate 10 ((1 : ℚ) / 2, ([2, 3, 4, 5, 6] : List Int))).length ≠ 3 := by
  have hw : windowFromStart [1, 2, 3, 4, 5, 6, 7, 8, 9, 10] [1] scenarioC_rt
      = (1 / 2, [2, 3, 4, 5, 6]) := by
    norm_num [windowFromStart, windowStep, scenarioC_rt, List.foldl]
  constructor
  · norm_num [search_windows, hw, List.foldlM, List.replicate, Bind.bind, Except.bind,
      pure, Except.pure, List.cons_ne_nil]
  · decide

/-! ## C4 -/

/-- C4: whenever the energy-calibration fitter returns successfully (for any
basis, hence for both the polynomial and full-range-fraction entry points),
every coefficient whose `fitfor` entry is false is returned exactly equal to
the supplied input value, and its returned uncertainty is exactly `0`.  (The
fixed coefficients' contributions are subtracted from the targets before
solving; see `targetEntry`/`fixedContribution`, which the successful result
is built from.) -/
theorem fit_energy_cal_fixed_invariant (devcorr devapply sqrtfn : ℚ → ℚ)
    (coeffcn : ℕ → ℚ → ℕ → ℚ) (peaks : List RecalPeakInfo) (fitfor : List Bool)
    (nchannels : ℕ) (coefs : List ℚ) (result : FitResult)
    (hok : fit_energy_cal_imp devcorr devapply sqrtfn coeffcn peaks fitfor nchannels coefs
      = .ok result)
    (i : ℕ) (hi : i < fitfor.length) (hfix : fitfor.getD i false = false) :
    result.coefs.getD i 0 = coefs.getD i 0 ∧ result.uncerts.getD i 0 = 0 := by
  have hcnt : fitfor.count true ≠ fitfor.length :=
    count_true_ne_length_of_false hi hfix
  unfold fit_energy_cal_imp at hok
  split_ifs at hok with h1 h2 h3 h4
  have hlen : coefs.length = fitfor.length := by
    rcases not_and_or.mp h4 with h | h
    · exact absurd (not_not.mp h) hcnt
    · exact not_not.mp h
  cases hM : matInvert (normalMat coeffcn fitfor nchannels peaks) with
  | none =>
    rw [hM] at hok
    simp at hok
  | some cmat =>
    rw [hM] at hok
    have hres : fitResultOf devcorr devapply sqrtfn coeffcn peaks fitfor nchannels coefs cmat
        = result := by
      injection hok
    subst hres
    constructor
    · simp only [fitResultOf, outCoefs]
      rw [getD_range_map _ _ _ _ hi, hfix]
      simp [resizeQ_eq_self hlen]
    · simp only [fitResultOf, outUncerts]
      rw [getD_range_map _ _ _ _ hi, hfix]
      simp

/-- C4 witness: a concrete successful one-peak fit with the constant
coefficient fixed; the fixed coefficient `3` is returned unchanged with
uncertainty `0`. -/
theorem fit_energy_cal_fixed_invariant_witness :
    fit_energy_cal_imp (fun _ => 0) (fun _ => 0) (fun q => q) poly_coef_fcn
        [{ peakMean := 1, peakMeanUncert := 1, peakMeanBinNumber := 1, photopeakEnergy := 1 }]
        [false, true] 16 [3, 0]
      = .ok { coefs := [3, -2], uncerts := [0, 1], chi2 := 0 }
    ∧ (FitResult.mk [3, -2] [0, 1] 0).coefs.getD 0 0 = ([3, 0] : List ℚ).getD 0 0
    ∧ (FitResult.mk [3, -2] [0, 1] 0).uncerts.getD 0 0 = 0 := by
  have hok : fit_energy_cal_imp (fun _ => 0) (fun _ => 0) (fun q => q) poly_coef_fcn
      [{ peakMean := 1, peakMeanUncert := 1, peakMeanBinNumber := 1, photopeakEnergy := 1 }]
      [false, true] 16 [3, 0]
      = .ok { coefs := [3, -2], uncerts := [0, 1], chi2 := 0 } := by
    norm_num [fit_energy_cal_imp, normalMat, designMatrix, designRow, freeIndices,
      energyUncert, targetVec, targetEntry, fixedContribution, matInvert, detQ, detFuel,
      matMul, matTr, matVec, colQ, dotQ, poly_coef_fcn, fitResultOf, outCoefs, outUncerts,
      resizeQ, freePos, solveVec, chi2Sum, List.range_succ]
  refine ⟨hok, ?_⟩
  have h := fit_energy_cal_fixed_invariant (fun _ => 0) (fun _ => 0) (fun q => q) poly_coef_fcn
    [{ peakMean := 1, peakMeanUncert := 1, peakMeanBinNumber := 1, photopeakEnergy := 1 }]
    [false, true] 16 [3, 0] { coefs := [3, -2], uncerts := [0, 1], chi2 := 0 }
    hok 0 (by decide) (by decide)
  exact h

/-! ## C8 -/

/-- A concrete peak used by counterexample inputs. -/
def samplePeak : RecalPeakInfo :=
  { peakMean := 1, peakMeanUncert := 1, peakMeanBinNumber := 1, photopeakEnergy := 1 }

/-- C8 counterexample: an input where neither of the claim's two failure
conditions holds (the peak count `1` is not smaller than the free-parameter
count `0`, the coefficient vector matches the mask size, and the
normal-equations matrix — empty — inverts), yet the fitter fails, because it
also requires at least one free parameter (line 179; and similarly at least
one peak, line 176). -/
theorem fit_energy_cal_underdetermined_counterexample :
    isOkE (fit_energy_cal_imp (fun _ => 0) (fun _ => 0) (fun q => q) poly_coef_fcn
        [samplePeak] [false] 16 [3]) = false
    ∧ ¬ (([samplePeak] : List RecalPeakInfo).length < ([false] : List Bool).count true)
    ∧ ([3] : List ℚ).length = ([false] : List Bool).length
    ∧ (matInvert (normalMat poly_coef_fcn [false] 16 [samplePeak])).isSome = true := by
  refine ⟨?_, by decide, by decide, ?_⟩
  · simp [fit_energy_cal_imp, isOkE]
  · norm_num [matInvert, normalMat, designMatrix, designRow, freeIndices, matMul, matTr,
      colQ, dotQ, detQ, detFuel]

/-- C8 (amended): the peak-based fitter succeeds exactly when there is at
least one peak, at least one free parameter, at least as many peaks as free
parameters, a supplied coefficient for every fixed parameter (vector size
matching the mask whenever some mask entry is false), and the
normal-equations matrix inverts. -/
theorem fit_energy_cal_ok_iff (devcorr devapply sqrtfn : ℚ → ℚ)
    (coeffcn : ℕ → ℚ → ℕ → ℚ) (peaks : List RecalPeakInfo) (fitfor : List Bool)
    (nchannels : ℕ) (coefs : List ℚ) :
    isOkE (fit_energy_cal_imp devcorr devapply sqrtfn coeffcn peaks fitfor nchannels coefs)
        = true ↔
      (1 ≤ peaks.length ∧ 1 ≤ fitfor.count true ∧ fitfor.count true ≤ peaks.length
        ∧ (fitfor.count true = fitfor.length ∨ coefs.length = fitfor.length)
        ∧ (matInvert (normalMat coeffcn fitfor nchannels peaks)).isSome = true) := by
  unfold fit_energy_cal_imp
  split_ifs with h1 h2 h3 h4
  · constructor
    · intro h
      simp [isOkE] at h
    · rintro ⟨ha, -, -, -, -⟩
      exact absurd ha (by omega)
  · constructor
    · intro h
      simp [isOkE] at h
    · rintro ⟨-, hb, -, -, -⟩
      exact absurd hb (by omega)
  · constructor
    · intro h
      simp [isOkE] at h
    · rintro ⟨-, -, hc, -, -⟩
      exact absurd hc (by omega)
  · constructor
    · intro h
      simp [isOkE] at h
    · rintro ⟨-, -, -, hd, -⟩
      rcases hd with hd | hd
      · exact absurd hd h4.1
      · exact absurd hd h4.2
  · cases hM : matInvert (normalMat coeffcn fitfor nchannels peaks) with
    | none =>
      constructor
      · intro h
        simp [isOkE] at h
      · rintro ⟨-, -, -, -, he⟩
        simp at he
    | some cmat =>
      constructor
      · intro _
        refine ⟨by omega, by omega, by omega, ?_, by simp⟩
        rcases not_and_or.mp h4 with h | h
        · exact Or.inl (not_not.mp h)
        · exact Or.inr (not_not.mp h)
      · intro _
        simp [isOkE]

/-! ## C5 -/

theorem strictlyIncreasingQ_iff_chain (ces : List ℚ) :
    strictlyIncreasingQ ces = true ↔ List.Chain' (· < ·) ces := by
  rw [List.chain'_iff_get]
  unfold strictlyIncreasingQ
  rw [List.all_eq_true]
  constructor
  · intro h i hi
    have hmem : i ∈ List.range (ces.length - 1) := List.mem_range.mpr hi
    have := h i hmem
    rw [decide_eq_true_iff] at this
    have h1 : ces.getD i 0 = ces.get ⟨i, by omega⟩ := List.getD_eq_getElem ces 0 (by omega)
    have h2 : ces.getD (i + 1) 0 = ces.get ⟨i + 1, by omega⟩ :=
      List.getD_eq_getElem ces 0 (by omega)
    rw [h1, h2] at this
    exact this
  · intro h i hmem
    rw [decide_eq_true_iff]
    have hi : i < ces.length - 1 := List.mem_range.mp hmem
    have := h i hi
    have h1 : ces.getD i 0 = ces.get ⟨i, by omega⟩ := List.getD_eq_getElem ces 0 (by omega)
    have h2 : ces.getD (i + 1) 0 = ces.get ⟨i + 1, by omega⟩ :=
      List.getD_eq_getElem ces 0 (by omega)
    rw [h1, h2]
    exact this

/-- C5 counterexample: a strictly increasing array with exactly 6 entries and
2 requested polynomial coefficients is rejected (the code requires strictly
more than 6 entries, line 283, while its own error message and the claim say
at least 6); and the full-range-fraction variant rejects 5 requested
coefficients (line 376) although the claim allows 2-5 for both variants. -/
theorem fit_from_channel_energies_counterexample :
    isOkE (fit_poly_from_channel_energies 2 [0, 1, 2, 3, 4, 5]) = false
    ∧ List.Chain' (· < ·) ([0, 1, 2, 3, 4, 5] : List ℚ)
    ∧ ([0, 1, 2, 3, 4, 5] : List ℚ).length = 6
    ∧ isOkE (fit_full_range_fraction_from_channel_energies 5 [0, 1, 2, 3, 4, 5, 6]) = false
    ∧ List.Chain' (· < ·) ([0, 1, 2, 3, 4, 5, 6] : List ℚ)
    ∧ 6 < ([0, 1, 2, 3, 4, 5, 6] : List ℚ).length := by
  refine ⟨?_, ?_, by decide, ?_, ?_, by decide⟩
  · simp [fit_poly_from_channel_energies, fit_from_channel_energies_imp, isOkE]
  · norm_num [List.chain'_cons]
  · simp [fit_full_range_fraction_from_channel_energies, isOkE]
  · norm_num [List.chain'_cons]

/-- C5 (amended): the channel-boundary-energy fitter succeeds exactly on a
strictly increasing array of MORE than 6 entries with 2-5 requested
coefficients for the polynomial variant and 2-4 for the full-range-fraction
variant, provided the normal-equations matrix inverts; and on success the
second returned component is the mean absolute per-channel reconstruction
error of the fitted coefficients against the input energies. -/
theorem fit_from_channel_energies_ok_iff (coeffcn : ℕ → ℚ → ℕ → ℚ) (ncoeffs : ℕ)
    (ces : List ℚ) :
    (isOkE (fit_from_channel_energies_imp coeffcn ncoeffs ces) = true ↔
      (2 ≤ ncoeffs ∧ ncoeffs < 6 ∧ 6 < ces.length ∧ List.Chain' (· < ·) ces
        ∧ (matInvert (ceNormalMat coeffcn ncoeffs ces.length (ces.length - 1))).isSome = true))
    ∧ (isOkE (fit_full_range_fraction_from_channel_energies ncoeffs ces) = true ↔
      (2 ≤ ncoeffs ∧ ncoeffs < 5 ∧ 6 < ces.length ∧ List.Chain' (· < ·) ces
        ∧ (matInvert (ceNormalMat frf_coef_fcn ncoeffs ces.length
            (ces.length - 1))).isSome = true))
    ∧ (∀ cmat, matInvert (ceNormalMat coeffcn ncoeffs ces.length (ces.length - 1)) = some cmat →
        2 ≤ ncoeffs → ncoeffs < 6 → 6 < ces.length → strictlyIncreasingQ ces = true →
        fit_from_channel_energies_imp coeffcn ncoeffs ces
          = .ok (ceSolve coeffcn ncoeffs ces cmat,
              ceReconError coeffcn ncoeffs ces (ceSolve coeffcn ncoeffs ces cmat))) := by
  have himp : ∀ cf : ℕ → ℚ → ℕ → ℚ,
      isOkE (fit_from_channel_energies_imp cf ncoeffs ces) = true ↔
        (2 ≤ ncoeffs ∧ ncoeffs < 6 ∧ 6 < ces.length ∧ List.Chain' (· < ·) ces
          ∧ (matInvert (ceNormalMat cf ncoeffs ces.length (ces.length - 1))).isSome
              = true) := by
    intro cf
    unfold fit_from_channel_energies_imp
    split_ifs with h1 h2 h3 h4
    · constructor
      · intro h
        simp [isOkE] at h
      · rintro ⟨ha, -, -, -, -⟩
        exact absurd ha (by omega)
    · constructor
      · intro h
        simp [isOkE] at h
      · rintro ⟨-, hb, -, -, -⟩
        exact absurd hb (by omega)
    · constructor
      · intro h
        simp [isOkE] at h
      · rintro ⟨-, -, hc, -, -⟩
        exact absurd hc (by omega)
    · cases hM : matInvert (ceNormalMat cf ncoeffs ces.length (ces.length - 1)) with
      | none =>
        constructor
        · intro h
          simp [isOkE] at h
        · rintro ⟨-, -, -, -, he⟩
          simp at he
      | some cmat =>
        constructor
        · intro _
          refine ⟨by omega, by omega, by omega, ?_, by simp⟩
          exact (strictlyIncreasingQ_iff_chain ces).mp h4
        · intro _
          simp [isOkE]
    · constructor
      · intro h
        simp [isOkE] at h
      · rintro ⟨-, -, -, hd, -⟩
        exact absurd ((strictlyIncreasingQ_iff_chain ces).mpr hd) h4
  refine ⟨himp coeffcn, ?_, ?_⟩
  · unfold fit_full_range_fraction_from_channel_energies
    split_ifs with h5
    · constructor
      · intro h
        simp [isOkE] at h
      · rintro ⟨-, hb, -, -, -⟩
        exact absurd hb (by omega)
    · rw [himp frf_coef_fcn]
      constructor
      · rintro ⟨ha, -, hc, hd, he⟩
        exact ⟨ha, by omega, hc, hd, he⟩
      · rintro ⟨ha, hb, hc, hd, he⟩
        exact ⟨ha, by omega, hc, hd, he⟩
  · intro cmat hM hn2 hn6 hlen hinc
    unfold fit_from_channel_energies_imp
    rw [if_neg (by omega), if_neg (by omega), if_neg (by omega),
      if_neg (by simp [hinc]), hM]

/-- C5 witness: the polynomial fit on the 7-entry array `[0..6]` with 2
coefficients, whose 2×2 normal matrix inverts; the theorem yields the
successful result with its reconstruction-error component. -/
theorem fit_from_channel_energies_ok_iff_witness :
    fit_from_channel_energies_imp poly_coef_fcn 2 [0, 1, 2, 3, 4, 5, 6]
      = .ok (ceSolve poly_coef_fcn 2 [0, 1, 2, 3, 4, 5, 6] [[7/6, -1/6], [-1/6, 1/6]],
          ceReconError poly_coef_fcn 2 [0, 1, 2, 3, 4, 5, 6]
            (ceSolve poly_coef_fcn 2 [0, 1, 2, 3, 4, 5, 6] [[7/6, -1/6], [-1/6, 1/6]])) := by
  have hM : matInvert (ceNormalMat poly_coef_fcn 2 ([0, 1, 2, 3, 4, 5, 6] : List ℚ).length
      (([0, 1, 2, 3, 4, 5, 6] : List ℚ).length - 1)) = some [[7/6, -1/6], [-1/6, 1/6]] := by
    norm_num [matInvert, ceNormalMat, ceDesignMatrix, matMul, matTr, colQ, dotQ, detQ,
      detFuel, poly_coef_fcn, List.range_succ]
  exact (fit_from_channel_energies_ok_iff poly_coef_fcn 2 [0, 1, 2, 3, 4, 5, 6]).2.2
    [[7/6, -1/6], [-1/6, 1/6]] hM (by decide) (by decide) (by decide) (by decide)

/-! ## C10 -/

theorem classifyMeasurements_ok_iff (n : ℕ) (ms : List Measurement) :
    isOkE (classifyMeasurements n ms) = true ↔
      ∀ m ∈ ms, m.num_gamma_channels = n ∧ m.source_type ≠ .IntrinsicActivity
        ∧ m.source_type ≠ .Calibration := by
  induction ms with
  | nil => simp [classifyMeasurements, isOkE]
  | cons m rest ih =>
    unfold classifyMeasurements
    by_cases h1 : m.num_gamma_channels ≠ n
    · rw [if_pos h1]
      constructor
      · intro h
        simp [isOkE] at h
      · intro h
        exact absurd ((h m (by simp)).1) h1
    · rw [if_neg h1]
      by_cases h2 : m.source_type = .IntrinsicActivity ∨ m.source_type = .Calibration
      · rw [if_pos h2]
        constructor
        · intro h
          simp [isOkE] at h
        · intro h
          rcases h2 with h2 | h2
          · exact absurd h2 (h m (by simp)).2.1
          · exact absurd h2 (h m (by simp)).2.2
      · rw [if_neg h2]
        cases hC : classifyMeasurements n rest with
        | error e =>
          constructor
          · intro h
            simp [isOkE] at h
          · intro h
            have hok : isOkE (classifyMeasurements n rest) = true := by
              rw [ih]
              intro m2 hm2
              exact h m2 (by simp [hm2])
            rw [hC] at hok
            simp [isOkE] at hok
        | ok nfnb =>
          constructor
          · intro _
            intro m2 hm2
            rcases List.mem_cons.mp hm2 with hm2 | hm2
            · subst hm2
              refine ⟨not_not.mp h1, ?_, ?_⟩
              · intro hx
                exact h2 (Or.inl hx)
              · intro hx
                exact h2 (Or.inr hx)
            · have hok : isOkE (classifyMeasurements n rest) = true := by
                rw [hC]
                rfl
              exact (ih.mp hok) m2 hm2
          · intro _
            split_ifs <;> rfl

theorem classifyMeasurements_counts (n : ℕ) (ms : List Measurement) (nf nb : ℕ)
    (h : classifyMeasurements n ms = .ok (nf, nb)) :
    nf = ms.countP (fun m => decide (m.source_type = .Foreground ∨ m.source_type = .Unknown))
    ∧ nb = ms.countP (fun m => decide (m.source_type = .Background)) := by
  induction ms generalizing nf nb with
  | nil =>
    unfold classifyMeasurements at h
    simp only [Except.ok.injEq, Prod.mk.injEq] at h
    simp [← h.1, ← h.2]
  | cons m rest ih =>
    unfold classifyMeasurements at h
    split_ifs at h with h1 h2 hbg
    · cases hC : classifyMeasurements n rest with
      | error e =>
        rw [hC] at h
        simp at h
      | ok nfnb =>
        rw [hC] at h
        obtain ⟨nf2, nb2⟩ := nfnb
        simp only [Except.ok.injEq, Prod.mk.injEq] at h
        obtain ⟨hf2, hb2⟩ := ih nf2 nb2 hC
        constructor
        · rw [List.countP_cons, ← h.1, hf2]
          simp [hbg]
        · rw [List.countP_cons, ← h.2, hb2]
          simp [hbg]
    · cases hC : classifyMeasurements n rest with
      | error e =>
        rw [hC] at h
        simp at h
      | ok nfnb =>
        rw [hC] at h
        obtain ⟨nf2, nb2⟩ := nfnb
        simp only [Except.ok.injEq, Prod.mk.injEq] at h
        obtain ⟨hf2, hb2⟩ := ih nf2 nb2 hC
        have hfore : m.source_type = .Foreground ∨ m.source_type = .Unknown := by
          cases hst : m.source_type
          · exact absurd (Or.inl hst) h2
          · exact absurd (Or.inr hst) h2
          · exact absurd hst hbg
          · exact Or.inl rfl
          · exact Or.inr rfl
        constructor
        · rcases hfore with hf | hf <;>
            (rw [List.countP_cons, ← h.1, hf2]; simp [hf])
        · rw [List.countP_cons, ← h.2, hb2]
          simp [hbg]

/-- C10: the simple-mode input validation (performed before any engine call)
passes exactly when the spectrum file is non-null with 1 or 2 measurements,
every measurement has the file's gamma channel count, none is an
intrinsic-activity or calibration spectrum, exactly one measurement is a
foreground (`Foreground` or `Unknown` source type), at most one is a
background, and the channel count lies in `[32, 65536]`; on any violation an
error result is produced instead. -/
theorem do_simple_analysis_validate_ok_iff (input_file : Option SpecFile) :
    isOkE (do_simple_analysis_validate input_file) = true ↔
      ∃ f, input_file = some f
        ∧ (f.measurements.length = 1 ∨ f.measurements.length = 2)
        ∧ (∀ m ∈ f.measurements, m.num_gamma_channels = f.num_gamma_channels)
        ∧ (∀ m ∈ f.measurements, m.source_type ≠ .IntrinsicActivity
            ∧ m.source_type ≠ .Calibration)
        ∧ f.measurements.countP
            (fun m => decide (m.source_type = .Foreground ∨ m.source_type = .Unknown)) = 1
        ∧ f.measurements.countP (fun m => decide (m.source_type = .Background)) ≤ 1
        ∧ 32 ≤ f.num_gamma_channels ∧ f.num_gamma_channels ≤ 64 * 1024 := by
  cases input_file with
  | none => simp [do_simple_analysis_validate, isOkE]
  | some f =>
    constructor
    · intro h
      simp only [do_simple_analysis_validate] at h
      by_cases h1 : f.measurements.length ≠ 1 ∧ f.measurements.length ≠ 2
      · rw [if_pos h1] at h
        simp [isOkE] at h
      · rw [if_neg h1] at h
        cases hC : classifyMeasurements f.num_gamma_channels f.measurements with
        | error e =>
          rw [hC, exceptThen_error] at h
          simp [isOkE] at h
        | ok nfnb =>
          rw [hC, exceptThen_ok] at h
          obtain ⟨nf, nb⟩ := nfnb
          obtain ⟨hnf, hnb⟩ := classifyMeasurements_counts _ _ _ _ hC
          have hcls := (classifyMeasurements_ok_iff f.num_gamma_channels f.measurements).mp
            (by rw [hC]; rfl)
          by_cases h2 : nf ≠ 1
          · rw [if_pos h2] at h
            simp [isOkE] at h
          · rw [if_neg h2] at h
            by_cases h3 : 1 < nb
            · rw [if_pos h3] at h
              simp [isOkE] at h
            · rw [if_neg h3] at h
              by_cases h4 : f.num_gamma_channels < 32 ∨ 64 * 1024 < f.num_gamma_channels
              · rw [if_pos h4] at h
                simp [isOkE] at h
              · refine ⟨f, rfl, ?_, fun m hm => (hcls m hm).1,
                  fun m hm => ⟨(hcls m hm).2.1, (hcls m hm).2.2⟩, ?_, ?_, ?_, ?_⟩
                · rcases not_and_or.mp h1 with hx | hx
                  · exact Or.inl (not_not.mp hx)
                  · exact Or.inr (not_not.mp hx)
                · rw [← hnf]
                  exact not_not.mp h2
                · rw [← hnb]
                  omega
                · omega
                · omega
    · rintro ⟨f2, hf2, hlen, hch, hsrc, hfg, hbgc, h32, h64⟩
      have hff : f2 = f := by
        injection hf2 with hx
        exact hx.symm
      subst hff
      simp only [do_simple_analysis_validate]
      rw [if_neg (by rcases hlen with hx | hx <;> simp [hx])]
      have hok : isOkE (classifyMeasurements f2.num_gamma_channels f2.measurements) = true := by
        rw [classifyMeasurements_ok_iff]
        intro m hm
        exact ⟨hch m hm, (hsrc m hm).1, (hsrc m hm).2⟩
      cases hC : classifyMeasurements f2.num_gamma_channels f2.measurements with
      | error e =>
        rw [hC] at hok
        simp [isOkE] at hok
      | ok nfnb =>
        obtain ⟨nf, nb⟩ := nfnb
        obtain ⟨hnf, hnb⟩ := classifyMeasurements_counts _ _ _ _ hC
        have hnf1 : nf = 1 := by rw [hnf, hfg]
        have hnb1 : ¬ (1 < nb) := by omega
        have hch1 : ¬ (f2.num_gamma_channels < 32 ∨ 64 * 1024 < f2.num_gamma_channels) := by
          omega
        rw [exceptThen_ok]
        simp [isOkE, hnf1, hnb1, hch1]

/-! ## C6 -/

theorem propagateGeneral_ne_unchanged (fns : SpecUtilsFns) (oc nc otc : EnergyCalibration) :
    propagateGeneral fns oc nc otc ≠ .ok .unchangedOther := by
  unfold propagateGeneral
  split_ifs with h1 h2
  · simp
  · simp
  · cases hT : otc.typ with
    | FullRangeFraction =>
      cases hF : fit_for_fullrangefraction_coefs (propagationSamples fns oc nc otc)
          otc.num_channels (max otc.coefficients.length
            (max oc.coefficients.length nc.coefficients.length)) with
      | error e => simp [hF]
      | ok cs => simp [hF]
    | Polynomial =>
      cases hF : fit_for_poly_coefs (propagationSamples fns oc nc otc)
          (max otc.coefficients.length
            (max oc.coefficients.length nc.coefficients.length)) with
      | error e => simp [hF]
      | ok cs => simp [hF]
    | LowerChannelEdge => exact absurd hT h1
    | UnspecifiedUsingDefaultPolynomial =>
      cases hF : fit_for_poly_coefs (propagationSamples fns oc nc otc)
          (max otc.coefficients.length
            (max oc.coefficients.length nc.coefficients.length)) with
      | error e => simp [hF]
      | ok cs => simp [hF]
    | InvalidEquationType =>
      cases hF : fit_for_poly_coefs (propagationSamples fns oc nc otc)
          (max otc.coefficients.length
            (max oc.coefficients.length nc.coefficients.length)) with
      | error e => simp [hF]
      | ok cs => simp [hF]

/-- C6: for valid inputs accepted by the propagator (all three calibrations
non-null and valid, the first two not of the channel-boundary type), the
propagator returns the `other` calibration reference itself unchanged
exactly when the original and new calibrations are identity-equal (the same
`shared_ptr` address); any two value-equal but distinct instances take the
general recomputation path, which never returns the unchanged reference. -/
theorem propogate_identity_noop (fns : SpecUtilsFns) (oc nc otc : CalRef)
    (hov : oc.cal.valid = true) (hnv : nc.cal.valid = true) (hotv : otc.cal.valid = true)
    (hot : oc.cal.typ ≠ .LowerChannelEdge) (hnt : nc.cal.typ ≠ .LowerChannelEdge) :
    propogate_energy_cal_change fns (some oc) (some nc) (some otc) = .ok .unchangedOther
      ↔ oc.addr = nc.addr := by
  have hstep : propogate_energy_cal_change fns (some oc) (some nc) (some otc)
      = if ¬ oc.cal.valid ∨ ¬ nc.cal.valid ∨ ¬ otc.cal.valid
            ∨ oc.cal.typ = .LowerChannelEdge ∨ nc.cal.typ = .LowerChannelEdge then
          .error ("EnergyCal::propogate_energy_cal_change invalid input")
        else if oc.addr = nc.addr then
          .ok .unchangedOther
        else
          propagateGeneral fns oc.cal nc.cal otc.cal := rfl
  rw [hstep, if_neg (by simp [hov, hnv, hotv, hot, hnt])]
  by_cases h : oc.addr = nc.addr
  · simp [h]
  · rw [if_neg h]
    simp only [h, iff_false]
    exact propagateGeneral_ne_unchanged fns oc.cal nc.cal otc.cal

/-- A collaborator bundle with inert numeric routines, for witnesses. -/
def trivialSpecUtilsFns : SpecUtilsFns :=
  { polynomial_energy := fun _ _ => 0, fullrangefraction_energy := fun _ _ _ => 0,
    find_polynomial_channel := fun _ _ _ _ => 0,
    find_fullrangefraction_channel := fun _ _ _ _ => 0,
    channel_for_energy := fun _ _ => 0, energy_for_channel := fun _ _ => 0 }

/-- C6 witness: with the original and new calibration being the very same
instance (address 5), the propagator returns the other calibration
unchanged. -/
theorem propogate_identity_noop_witness :
    propogate_energy_cal_change trivialSpecUtilsFns
        (some { addr := 5, cal := mkPolynomialCal 1024 [0, 3] [] })
        (some { addr := 5, cal := mkPolynomialCal 1024 [0, 3] [] })
        (some { addr := 9, cal := mkPolynomialCal 2048 [0, 2] [] })
      = .ok .unchangedOther := by
  exact (propogate_identity_noop trivialSpecUtilsFns
    { addr := 5, cal := mkPolynomialCal 1024 [0, 3] [] }
    { addr := 5, cal := mkPolynomialCal 1024 [0, 3] [] }
    { addr := 9, cal := mkPolynomialCal 2048 [0, 2] [] }
    rfl rfl rfl (by decide) (by decide)).mpr rfl

/-! ## C9 -/

/-- C9: serialization sets `"code"` to 6 exactly when the initialization or
analysis error code is negative, omitting the detector-response name, the
result scalars and the isotope list in that case; otherwise it sets `"code"`
to 0 and emits the detector-response name, quantity of interest, isotope
summary string, chi-square, alarm-basis duration, the warning strings when
present, and one record per identified isotope (when the five parallel
arrays agree in length) with name, category, count rate, numeric confidence
and confidence label. -/
theorem analysis_output_toJson_spec (o : AnalysisOutput) :
    ((jget o.toJson ("code") = some (JVal.jint 6)) ↔
      (o.gadras_intialization_error < 0 ∨ o.gadras_analysis_error < 0))
    ∧ ((o.gadras_intialization_error < 0 ∨ o.gadras_analysis_error < 0) →
        jget o.toJson ("drf") = none ∧ jget o.toJson ("stuffOfInterest") = none
          ∧ jget o.toJson ("isotopeString") = none ∧ jget o.toJson ("chi2") = none
          ∧ jget o.toJson ("alarmBasisDuration") = none
          ∧ jget o.toJson ("isotopes") = none
          ∧ jget o.toJson ("analysisWarnings") = none)
    ∧ (¬ (o.gadras_intialization_error < 0 ∨ o.gadras_analysis_error < 0) →
        jget o.toJson ("code") = some (JVal.jint 0)
          ∧ jget o.toJson ("drf") = some (JVal.jstr o.drf_used)
          ∧ jget o.toJson ("stuffOfInterest") = some (JVal.jnum o.stuff_of_interest)
          ∧ jget o.toJson ("isotopeString") = some (JVal.jstr o.isotopes)
          ∧ jget o.toJson ("chi2") = some (JVal.jnum o.chi_sqr)
          ∧ jget o.toJson ("alarmBasisDuration") = some (JVal.jnum o.alarm_basis_duration)
          ∧ jget o.toJson ("isotopes") = some (JVal.jarr (isotopeRecords o))
          ∧ (o.analysis_warnings ≠ [] →
              jget o.toJson ("analysisWarnings")
                = some (JVal.jarr (o.analysis_warnings.map JVal.jstr)))
          ∧ (o.isotope_types.length = o.isotope_names.length →
              o.isotope_count_rates.length = o.isotope_names.length →
              o.isotope_confidences.length = o.isotope_names.length →
              o.isotope_confidence_strs.length = o.isotope_names.length →
              (isotopeRecords o).length = o.isotope_names.length
                ∧ ∀ i, i < o.isotope_names.length →
                    (isotopeRecords o).getD i (JVal.jint 0) = isotopeRecord o i)) := by
  by_cases hfail : o.gadras_intialization_error < 0 ∨ o.gadras_analysis_error < 0
  · refine ⟨⟨fun _ => hfail, fun _ => ?_⟩, fun _ => ?_, fun hc => absurd hfail hc⟩
    · by_cases hinit : o.gadras_intialization_error < 0
      · by_cases hmsg : o.error_message = "" <;>
          simp [AnalysisOutput.toJson, jget, hinit, hmsg]
      · have hana := hfail.resolve_left hinit
        by_cases hmsg : o.error_message = "" <;>
          simp [AnalysisOutput.toJson, jget, hinit, hana, hmsg]
    · by_cases hinit : o.gadras_intialization_error < 0
      · by_cases hmsg : o.error_message = "" <;>
          simp [AnalysisOutput.toJson, jget, hinit, hmsg]
      · have hana := hfail.resolve_left hinit
        by_cases hmsg : o.error_message = "" <;>
          simp [AnalysisOutput.toJson, jget, hinit, hana, hmsg]
  · have hrecords : o.isotope_types.length = o.isotope_names.length →
        o.isotope_count_rates.length = o.isotope_names.length →
        o.isotope_confidences.length = o.isotope_names.length →
        o.isotope_confidence_strs.length = o.isotope_names.length →
        (isotopeRecords o).length = o.isotope_names.length
          ∧ ∀ i, i < o.isotope_names.length →
              (isotopeRecords o).getD i (JVal.jint 0) = isotopeRecord o i := by
      intro h1 h2 h3 h4
      have hnum : numIsotopeRecords o = o.isotope_names.length := by
        unfold numIsotopeRecords
        rw [h1, h2, h3, h4]
        simp
      constructor
      · simp [isotopeRecords, hnum]
      · intro i hi
        unfold isotopeRecords
        rw [hnum]
        exact getD_range_map _ _ _ _ hi
    refine ⟨⟨fun hj => ?_, fun hc => absurd hc hfail⟩, fun hc => absurd hc hfail,
      fun _ => ?_⟩
    · exfalso
      have hni : ¬ o.gadras_intialization_error < 0 := fun hx => hfail (Or.inl hx)
      have hna : ¬ o.gadras_analysis_error < 0 := fun hx => hfail (Or.inr hx)
      by_cases hmsg : o.error_message = "" <;>
        by_cases hwarn : o.analysis_warnings = [] <;>
          simp [AnalysisOutput.toJson, jget, hni, hna, hmsg, hwarn] at hj
    · have hni : ¬ o.gadras_intialization_error < 0 := fun hx => hfail (Or.inl hx)
      have hna : ¬ o.gadras_analysis_error < 0 := fun hx => hfail (Or.inr hx)
      refine ⟨?_, ?_, ?_, ?_, ?_, ?_, ?_, fun hwarn2 => ?_, hrecords⟩ <;>
        (by_cases hmsg : o.error_message = "" <;>
          by_cases hwarn : o.analysis_warnings = [] <;>
            first
              | exact absurd hwarn hwarn2
              | simp [AnalysisOutput.toJson, jget, hni, hna, hmsg, hwarn])

/-- A concrete successful `AnalysisOutput` used by the serialization
witness. -/
def goodOutput : AnalysisOutput :=
  { ana_number := 2, drf_used := "IdentiFINDER", gadras_intialization_error := 0,
    gadras_analysis_error := 1, error_message := "",
    analysis_warnings := ["check energy cal"], stuff_of_interest := 3,
    rate_not_norm := 2, isotopes := "Cs137(H)", chi_sqr := 2,
    alarm_basis_duration := 4, isotope_names := ["Cs137"],
    isotope_types := ["Industrial"], isotope_count_rates := [5],
    isotope_confidences := [9], isotope_confidence_strs := ["H"] }

/-- C9 witness: the serialization facts evaluated at a failed output
(`sampleOutput`, both error codes `-999`) and a successful one
(`goodOutput`). -/
theorem analysis_output_toJson_spec_witness :
    jget sampleOutput.toJson ("code") = some (JVal.jint 6)
    ∧ jget sampleOutput.toJson ("drf") = none
    ∧ jget goodOutput.toJson ("code") = some (JVal.jint 0)
    ∧ jget goodOutput.toJson ("drf") = some (JVal.jstr ("IdentiFINDER"))
    ∧ jget goodOutput.toJson ("analysisWarnings")
        = some (JVal.jarr [JVal.jstr ("check energy cal")])
    ∧ (isotopeRecords goodOutput).length = 1 := by
  refine ⟨?_, ?_, ?_, ?_, ?_, ?_⟩
  · exact (analysis_output_toJson_spec sampleOutput).1.mpr (Or.inl (by decide))
  · exact ((analysis_output_toJson_spec sampleOutput).2.1 (Or.inl (by decide))).1
  · exact ((analysis_output_toJson_spec goodOutput).2.2 (by decide)).1
  · exact ((analysis_output_toJson_spec goodOutput).2.2 (by decide)).2.1
  · exact ((analysis_output_toJson_spec goodOutput).2.2 (by decide)).2.2.2.2.2.2.2.1
      (by decide)
  · exact (((analysis_output_toJson_spec goodOutput).2.2 (by decide)).2.2.2.2.2.2.2.2
      rfl rfl rfl rfl).1

end FullSpec
